import Mathlib

set_option autoImplicit false

namespace RiskItFree

/-!
Shallow embedding of the risk-it-free mobile app client (React Native / Expo).

Screens issue HTTP requests with `fetch`, toggle loading flags, show alerts,
navigate, and keep fetched records in component state; the auth context
(`useAuth`) additionally persists the session token and user record in
secure storage.  Each screen operation is embedded as a pure function from
the outcomes of its network calls to the ordered list of observable events
it produces (requests issued, loading-flag writes, alerts, navigations,
chat appends) together with its resulting state.  Randomness
(`Math.random()` in the capture screen) is embedded as explicit random
draws passed as arguments.
-/

/-- A backend endpoint, one constructor per route the app requests. -/
inductive Endpoint where
  | userLogin
  | userMe
  | userRegister
  | spaceUser (userId : String)
  | spaceDetail (spaceId : String)
  | spaceLogsOfSpace (spaceId : String)
  | logDetail (logId : String)
  | patientList
  | spaceCreate
  | spaceLogsCreate
  | spaceDelete (spaceId : String)
  | chatConversation
  deriving DecidableEq

/-- Observable UI / IO events emitted by a screen operation, in program order.
`setFlag` records writes to a loading flag (`isLoading`, `uploading`, ...);
`storeWrite` records a write to secure storage (key only, values are tracked
in `Storage`); `chatAppend` records a message appended to the chat thread. -/
inductive Event where
  | request (ep : Endpoint) (auth : Option String)
  | setFlag (flag : String) (value : Bool)
  | alert (title : String) (msg : String)
  | navigate (route : String)
  | storeWrite (key : String)
  | chatAppend (msg : String)
  deriving DecidableEq

/-- Outcome of one `await fetch(...)` together with the subsequent
`response.json()`: the promise either rejects (network failure, carrying the
runtime error message) or yields a response with an `ok` flag and a body that
either parses to `α` or fails to parse (carrying the parse error message). -/
inductive FetchResult (α : Type) where
  | reject (msg : String)
  | response (ok : Bool) (body : Except String α)

/-- JS truthiness of a nullable string (`null` and `''` are falsy). -/
def truthy : Option String → Bool
  | none => false
  | some s => s ≠ ""

/-- `'Authorization': 'Bearer <token>'` header value. -/
def bearer (token : String) : Option String :=
  some ("Bearer " ++ token)

/-- The endpoints requested by a trace, in order. -/
def requestsOf (evs : List Event) : List Endpoint :=
  evs.filterMap fun e =>
    match e with
    | Event.request ep _ => some ep
    | _ => none

/-- All requests of a trace carry `Bearer token` authorization. -/
def allAuthed (token : String) (evs : List Event) : Bool :=
  evs.all fun e =>
    match e with
    | Event.request _ a => a = some ("Bearer " ++ token)
    | _ => true

/-- Whether a trace contains an alert. -/
def hasAlert (evs : List Event) : Bool :=
  evs.any fun e =>
    match e with
    | Event.alert _ _ => true
    | _ => false

/-- Whether a trace contains a secure-storage write. -/
def hasStoreWrite (evs : List Event) : Bool :=
  evs.any fun e =>
    match e with
    | Event.storeWrite _ => true
    | _ => false

/-- Loading-flag discipline of a trace: scanning left to right with the flag
initially clear, every request must be issued while the flag is set, and the
flag must be clear at the end of every path. -/
def flagOkAux : List Event → Bool → Bool
  | [], f => !f
  | Event.setFlag _ v :: rest, _ => flagOkAux rest v
  | Event.request _ _ :: rest, f => f && flagOkAux rest f
  | _ :: rest, f => flagOkAux rest f

/-- A trace toggles its loading flag around its requests and never leaves it
set. -/
def flagOk (evs : List Event) : Bool :=
  flagOkAux evs false

/-! ## Capture screen (src/unnamed/part_001): `generateMockAnalysis` -/

def possibleHazardsHighPriority : List String :=
  ["Exposed wiring", "Wet floor without sign", "Blocked emergency exit"]

def possibleHazardsMediumPriority : List String :=
  ["Cluttered pathway", "Poor lighting", "Loose carpeting", "Uneven flooring"]

def possibleHazardsLowPriority : List String :=
  ["Dim lighting", "Furniture placement", "Cable management needed"]

def possibleRecommendations : List String :=
  ["Move furniture to create wider pathways",
   "Secure loose cables along walls",
   "Install better lighting in dark areas",
   "Add grab bars near stairs and in bathrooms",
   "Remove trip hazards from walkways",
   "Use non-slip mats in wet areas",
   "Store frequently used items within easy reach",
   "Consider motion-activated night lights"]

/-- The random draws consumed by one invocation of `generateMockAnalysis`.
Each `Math.floor(Math.random() * n)` draw is a value of `Fin n`; the
recommendation loop draws a fresh index on every iteration, so those draws
are a stream. -/
structure MockRand where
  scoreR : Fin 40
  highR : Fin 3
  medR : Fin 4
  lowR : Fin 3
  numRecR : Fin 3
  recR : Nat → Fin 8

structure HazardList where
  high_priority : List String
  medium_priority : List String
  low_priority : List String
  deriving DecidableEq

structure BBoxObject where
  objType : String
  /-- `confidence: 0.92` in the source, kept in hundredths. -/
  confidencePct : Nat
  bbox : List Nat
  deriving DecidableEq

structure BoundingBoxInfo where
  objects : List BBoxObject
  deriving DecidableEq

structure MockAnalysis where
  score : Nat
  bounding_box_info : BoundingBoxInfo
  recommendations : List String
  hazard_list : HazardList
  deriving DecidableEq

/-- The `for` loop that randomly selects 2-4 recommendations, skipping
duplicates: iteration `i` draws `recR i` and pushes the drawn recommendation
if it is not already present. -/
def selectRecommendations (recR : Nat → Fin 8) (num : Nat) : List String :=
  (List.range num).foldl
    (fun acc i =>
      let r := possibleRecommendations.getD (recR i).val ""
      if r ∈ acc then acc else acc ++ [r])
    []

/-- `generateMockAnalysis` from the capture screen in src/unnamed/part_001:
score is `Math.floor(Math.random()*40)+60`; one random high-priority hazard
iff score < 70, one random medium-priority hazard iff score < 85, always one
random low-priority hazard; 2-4 recommendation draws with duplicates
skipped; a constant bounding box. -/
def generateMockAnalysis (r : MockRand) : MockAnalysis :=
  let score := r.scoreR.val + 60
  let hazardList : HazardList :=
    { high_priority :=
        if score < 70 then [possibleHazardsHighPriority.getD r.highR.val ""] else [],
      medium_priority :=
        if score < 85 then [possibleHazardsMediumPriority.getD r.medR.val ""] else [],
      low_priority := [possibleHazardsLowPriority.getD r.lowR.val ""] }
  let recommendations := selectRecommendations r.recR (r.numRecR.val + 2)
  { score := score,
    bounding_box_info :=
      { objects := [{ objType := "furniture", confidencePct := 92, bbox := [50, 80, 200, 300] }] },
    recommendations := recommendations,
    hazard_list := hazardList }

/-- The JSON payload `uploadImage` (src/unnamed/part_001) POSTs to
`/space/logs/create`: the image plus every field of the client-side mock
analysis. -/
structure UploadPayload where
  space_id : String
  image_data : String
  score : Nat
  bounding_box_info : BoundingBoxInfo
  recommendations : List String
  hazard_list : HazardList
  comments : String
  deriving DecidableEq

/-- The payload constructed inside `uploadImage` in src/unnamed/part_001. -/
def uploadPayload (spaceId image spaceName : String) (r : MockRand) : UploadPayload :=
  let mockAnalysis := generateMockAnalysis r
  { space_id := spaceId,
    image_data := image,
    score := mockAnalysis.score,
    bounding_box_info := mockAnalysis.bounding_box_info,
    recommendations := mockAnalysis.recommendations,
    hazard_list := mockAnalysis.hazard_list,
    comments := "Safety assessment for " ++ spaceName }

/-! ## Auth context (src/hooks/useAuth.tsx) -/

/-- The `User` interface of useAuth.tsx. -/
structure UserRec where
  id : String
  email : String
  firstName : String
  lastName : String
  username : String
  phoneNumber : Option String
  emergencyContact : Option String
  deriving DecidableEq

/-- Body of a successful `/user/login` response (`LoginResponse`). -/
structure LoginBody where
  access_token : String
  token_type : String
  deriving DecidableEq

/-- Body of a successful `/user/me` response; `mongoId` embeds the `_id`
field. -/
structure MeBody where
  mongoId : String
  email : String
  username : String
  first_name : String
  last_name : String
  phone_number : Option String
  emergency_contact : Option String
  deriving DecidableEq

/-- The reformatting of `/user/me` data into the `User` shape in `signIn`. -/
def formatUser (ub : MeBody) : UserRec :=
  { id := ub.mongoId,
    email := ub.email,
    username := ub.username,
    firstName := ub.first_name,
    lastName := ub.last_name,
    phoneNumber := ub.phone_number,
    emergencyContact := ub.emergency_contact }

/-- Expo SecureStore contents, typed per key: `userToken` holds the raw
token string, `userData` the JSON-serialised user record (serialisation is
embedded as the record itself, `JSON.parse ∘ JSON.stringify` being the
identity on these records). -/
structure Storage where
  userToken : Option String
  userData : Option UserRec
  deriving DecidableEq

/-- In-memory auth context state plus secure storage. -/
structure AuthState where
  user : Option UserRec
  token : Option String
  storage : Storage
  deriving DecidableEq

/-- Outcomes of the two network calls `signIn` can issue. -/
structure SignInInputs where
  loginRes : FetchResult LoginBody
  meRes : FetchResult MeBody

structure SignInResult where
  events : List Event
  state : AuthState
  /-- whether the promise returned by the operation rejects. -/
  threw : Bool

/-- Whether both requests of `signIn` return ok with parseable bodies. -/
def signInSucceeds (inp : SignInInputs) : Bool :=
  match inp.loginRes, inp.meRes with
  | FetchResult.response true (Except.ok _), FetchResult.response true (Except.ok _) => true
  | _, _ => false

/-- The access token of a parsed ok `/user/login` response, if any. -/
def signInToken (inp : SignInInputs) : Option String :=
  match inp.loginRes with
  | FetchResult.response true (Except.ok lb) => some lb.access_token
  | _ => none

/-- `signIn` from useAuth.tsx: POST `/user/login`, then GET `/user/me` with
the fresh bearer token, store token and user in SecureStore and in context
state; every failure is caught inside, shows an alert and leaves the state
untouched; the `finally` clears `isLoading`.  The returned promise never
rejects. -/
def signIn (inp : SignInInputs) (st : AuthState) : SignInResult :=
  let e0 : List Event := [Event.setFlag "isLoading" true,
                          Event.request Endpoint.userLogin none]
  let fail (evs : List Event) : SignInResult :=
    { events := evs ++ [Event.alert "Error" "Failed to sign in. Please check your credentials.",
                        Event.setFlag "isLoading" false],
      state := st,
      threw := false }
  match inp.loginRes with
  | FetchResult.reject _ => fail e0
  | FetchResult.response ok body =>
    if ok then
      match body with
      | Except.error _ => fail e0
      | Except.ok lb =>
        let e1 := e0 ++ [Event.request Endpoint.userMe (bearer lb.access_token)]
        match inp.meRes with
        | FetchResult.reject _ => fail e1
        | FetchResult.response mok mbody =>
          if mok then
            match mbody with
            | Except.error _ => fail e1
            | Except.ok ub =>
              let u := formatUser ub
              { events := e1 ++ [Event.storeWrite "userToken", Event.storeWrite "userData",
                                 Event.setFlag "isLoading" false],
                state := { user := some u,
                           token := some lb.access_token,
                           storage := { userToken := some lb.access_token, userData := some u } },
                threw := false }
          else fail e1
    else fail e0

/-- JS `String.prototype.trim()`: drop whitespace from both ends (embedded
over the character list so it evaluates). -/
def jsTrim (s : String) : String :=
  String.mk (((s.data.dropWhile Char.isWhitespace).reverse.dropWhile Char.isWhitespace).reverse)

/-- `handleLogin` from src/app/(auth)/login.tsx: validate the two fields,
await `signIn`, then navigate to `/tabs`; `finally` clears `isSubmitting`. -/
def handleLogin (username password : String) (inp : SignInInputs) (st : AuthState) :
    List Event × AuthState :=
  if jsTrim username = "" ∨ jsTrim password = "" then
    ([Event.alert "Error" "Please enter both username and password"], st)
  else
    let r := signIn inp st
    let evs := Event.setFlag "isSubmitting" true :: r.events
    if r.threw then
      (evs ++ [Event.setFlag "isSubmitting" false], r.state)
    else
      (evs ++ [Event.navigate "/tabs", Event.setFlag "isSubmitting" false], r.state)

/-- An error body shaped `{ detail?: string }` as read by signUp and the
create-space handler on non-2xx responses. -/
structure DetailBody where
  detail : Option String
  deriving DecidableEq

/-- `signUp` from useAuth.tsx: POST `/user/register`; on a non-2xx response
the error detail is parsed and thrown, the catch alerts and rethrows
(`throw error`), so the promise rejects on failure. -/
def signUp (res : FetchResult DetailBody) : List Event × Bool :=
  let e0 : List Event := [Event.setFlag "isLoading" true,
                          Event.request Endpoint.userRegister none]
  match res with
  | FetchResult.reject m =>
    (e0 ++ [Event.alert "Error" m, Event.setFlag "isLoading" false], true)
  | FetchResult.response ok body =>
    if ok then
      (e0 ++ [Event.setFlag "isLoading" false], false)
    else
      match body with
      | Except.error m =>
        (e0 ++ [Event.alert "Error" m, Event.setFlag "isLoading" false], true)
      | Except.ok b =>
        (e0 ++ [Event.alert "Error" (b.detail.getD "Registration failed"),
                Event.setFlag "isLoading" false], true)

/-- `loadToken` from useAuth.tsx: on startup restore token and user from
SecureStore when both are present (and the token string is truthy). -/
def loadToken (st : Storage) : Option String × Option UserRec :=
  match st.userToken, st.userData with
  | some t, some u => if t = "" then (none, none) else (some t, some u)
  | _, _ => (none, none)

/-! ## Screen operations -/

/-- The `Space` record of src/app/tabs/index.tsx; `mongoId` embeds `_id`. -/
structure SpaceRec where
  mongoId : String
  space_name : String
  description : String
  created_at : String
  deriving DecidableEq

/-- The `SpaceLog` record of src/app/space/log.tsx (display fields). -/
structure SpaceLogRec where
  mongoId : String
  space_id : String
  image_data : String
  score : Int
  recommendations : List String
  hazard_list : HazardList
  comments : String
  created_at : String
  updated_at : String
  deriving DecidableEq

/-- The `Patient` record of src/app/space/add.tsx. -/
structure PatientRec where
  mongoId : String
  patient_name : String
  patient_condition : String
  patient_age : Nat
  medical_history : Option String
  deriving DecidableEq

/-- `fetchSpaces` from src/app/tabs/index.tsx: guarded on token and user,
GET `/space/user/{user.id}` with bearer token, alert on any failure,
`finally` clears `isLoading`. -/
def fetchSpaces (token : Option String) (user : Option UserRec)
    (res : FetchResult (List SpaceRec)) : List Event × List SpaceRec :=
  match token, user with
  | some tok, some u =>
    if tok = "" then ([], []) else
    let e0 : List Event := [Event.setFlag "isLoading" true,
                            Event.request (Endpoint.spaceUser u.id) (bearer tok)]
    let fail := e0 ++ [Event.alert "Error" "Failed to load your spaces. Please try again later.",
                       Event.setFlag "isLoading" false]
    match res with
    | FetchResult.reject _ => (fail, [])
    | FetchResult.response ok body =>
      if ok then
        match body with
        | Except.ok data => (e0 ++ [Event.setFlag "isLoading" false], data)
        | Except.error _ => (fail, [])
      else (fail, [])
  | _, _ => ([], [])

/-- `fetchSpaceDetails` from src/app/space/log.tsx: GET `/space/{id}`, and
only after it returns ok and parses, GET `/space/logs/space/{id}`; any
failure alerts; `finally` clears `loading`. -/
def fetchSpaceDetails (token id : Option String)
    (spaceRes : FetchResult SpaceRec) (logsRes : FetchResult (List SpaceLogRec)) :
    List Event × Option SpaceRec × List SpaceLogRec :=
  match token, id with
  | some tok, some i =>
    if tok = "" ∨ i = "" then ([], none, []) else
    let e0 : List Event := [Event.setFlag "loading" true,
                            Event.request (Endpoint.spaceDetail i) (bearer tok)]
    let err (evs : List Event) :=
      evs ++ [Event.alert "Error" "Failed to load space details. Please try again later.",
              Event.setFlag "loading" false]
    match spaceRes with
    | FetchResult.reject _ => (err e0, none, [])
    | FetchResult.response ok body =>
      if ok then
        match body with
        | Except.error _ => (err e0, none, [])
        | Except.ok sp =>
          let e1 := e0 ++ [Event.request (Endpoint.spaceLogsOfSpace i) (bearer tok)]
          match logsRes with
          | FetchResult.reject _ => (err e1, some sp, [])
          | FetchResult.response lok lbody =>
            if lok then
              match lbody with
              | Except.error _ => (err e1, some sp, [])
              | Except.ok logs => (e1 ++ [Event.setFlag "loading" false], some sp, logs)
            else (err e1, some sp, [])
      else (err e0, none, [])
  | _, _ => ([], none, [])

/-- `fetchLogDetails` from src/app/space/log/[logId].tsx: GET
`/space/logs/{logId}` with bearer token; alert on failure; `finally` clears
`loading`. -/
def fetchLogDetails (token logId : Option String) (res : FetchResult SpaceLogRec) :
    List Event × Option SpaceLogRec :=
  match token, logId with
  | some tok, some lid =>
    if tok = "" ∨ lid = "" then ([], none) else
    let e0 : List Event := [Event.setFlag "loading" true,
                            Event.request (Endpoint.logDetail lid) (bearer tok)]
    let fail := e0 ++ [Event.alert "Error" "Failed to load assessment details. Please try again later.",
                       Event.setFlag "loading" false]
    match res with
    | FetchResult.reject _ => (fail, none)
    | FetchResult.response ok body =>
      if ok then
        match body with
        | Except.ok lg => (e0 ++ [Event.setFlag "loading" false], some lg)
        | Except.error _ => (fail, none)
      else (fail, none)
  | _, _ => ([], none)

/-- `fetchPatients` from src/app/space/add.tsx: GET `/patient` with bearer
token; alert on failure; `finally` clears `loadingPatients`. -/
def fetchPatients (token : Option String) (res : FetchResult (List PatientRec)) :
    List Event × List PatientRec :=
  match token with
  | some tok =>
    if tok = "" then ([], []) else
    let e0 : List Event := [Event.setFlag "loadingPatients" true,
                            Event.request Endpoint.patientList (bearer tok)]
    let fail := e0 ++ [Event.alert "Error" "Failed to load patients. Please try again later.",
                       Event.setFlag "loadingPatients" false]
    match res with
    | FetchResult.reject _ => (fail, [])
    | FetchResult.response ok body =>
      if ok then
        match body with
        | Except.ok data => (e0 ++ [Event.setFlag "loadingPatients" false], data)
        | Except.error _ => (fail, [])
      else (fail, [])
  | none => ([], [])

/-- `handleSubmit` (create space) from src/app/space/add.tsx: validate the
name and the session, POST `/space/create` with bearer token; a non-2xx
response has its `detail` parsed and thrown, the catch alerts with the
thrown message; success alerts and navigates to `/tabs` from the alert
button; `finally` clears `isLoading`. -/
def handleSubmitCreateSpace (spaceName : String) (token : Option String)
    (user : Option UserRec) (res : FetchResult DetailBody) : List Event :=
  if jsTrim spaceName = "" then
    [Event.alert "Error" "Please enter a name for your space"]
  else
    match token, user with
    | some tok, some u =>
      if tok = "" then
        [Event.alert "Error" "You need to be logged in to create a space"]
      else
        let _ := u
        let e0 : List Event := [Event.setFlag "isLoading" true,
                                Event.request Endpoint.spaceCreate (bearer tok)]
        match res with
        | FetchResult.reject m =>
          e0 ++ [Event.alert "Error" m, Event.setFlag "isLoading" false]
        | FetchResult.response ok body =>
          if ok then
            match body with
            | Except.error m =>
              e0 ++ [Event.alert "Error" m, Event.setFlag "isLoading" false]
            | Except.ok _ =>
              e0 ++ [Event.alert "Success" ("Space \"" ++ spaceName ++ "\" created successfully!"),
                     Event.setFlag "isLoading" false,
                     Event.navigate "/tabs"]
          else
            match body with
            | Except.error m =>
              e0 ++ [Event.alert "Error" m, Event.setFlag "isLoading" false]
            | Except.ok b =>
              e0 ++ [Event.alert "Error" (b.detail.getD "Failed to create space"),
                     Event.setFlag "isLoading" false]
    | _, _ => [Event.alert "Error" "You need to be logged in to create a space"]

/-- `uploadImage` from the capture screen in src/unnamed/part_001: guard on
image, space id and token; build the payload from `generateMockAnalysis`;
POST `/space/logs/create` with bearer token; alert on failure, alert and
navigate (from the alert button, after the `finally`) on success; `finally`
clears `uploading`.  Also returns the payload it submitted, if any. -/
def uploadImage (image spaceId token : Option String) (spaceName : String)
    (r : MockRand) (createRes : FetchResult Unit) :
    List Event × Option UploadPayload :=
  match image, spaceId, token with
  | some img, some sid, some tok =>
    if img = "" ∨ sid = "" ∨ tok = "" then
      ([Event.alert "Error" "Missing image data or space information"], none)
    else
      let payload := uploadPayload sid img spaceName r
      let e0 : List Event := [Event.setFlag "uploading" true,
                              Event.request Endpoint.spaceLogsCreate (bearer tok)]
      match createRes with
      | FetchResult.reject _ =>
        (e0 ++ [Event.alert "Error" "Failed to upload image and create assessment. Please try again.",
                Event.setFlag "uploading" false], some payload)
      | FetchResult.response ok _ =>
        if ok then
          (e0 ++ [Event.alert "Success" "Safety assessment created successfully!",
                  Event.setFlag "uploading" false,
                  Event.navigate ("/space/" ++ sid)], some payload)
        else
          (e0 ++ [Event.alert "Error" "Failed to upload image and create assessment. Please try again.",
                  Event.setFlag "uploading" false], some payload)
  | _, _, _ => ([Event.alert "Error" "Missing image data or space information"], none)

/-- Body of the conversational agent response: `data.response` and
`data.history` (history entries kept as raw strings). -/
structure ChatBody where
  responseText : Option String
  history : List String
  deriving DecidableEq

/-- The `Authorization` header of the chat request:
`token ? 'Bearer ' + token : ''`. -/
def chatAuthHeader (token : Option String) : Option String :=
  some (match token with
        | some t => if t = "" then "" else "Bearer " ++ t
        | none => "")

/-- `onSend` from the chat screen in src/app/index.tsx: append the user
message, POST `/simple_agent/simple_conversation`, then always parse the
body; an agent message is appended only when the response is ok and has a
truthy `response` field; a non-2xx response with a parseable body is
silently ignored (no throw, no alert); only a rejected fetch or parse
appends an in-chat error message; `finally` clears `loading`.  The agent
text is appended after `processAgentResponse` display formatting, elided
here. -/
def onSend (token : Option String) (userMessage : String) (res : FetchResult ChatBody) :
    List Event :=
  let e0 : List Event := [Event.chatAppend userMessage,
                          Event.setFlag "loading" true,
                          Event.request Endpoint.chatConversation (chatAuthHeader token)]
  let chatErr := Event.chatAppend "Sorry, there was an error processing your request. Please try again."
  match res with
  | FetchResult.reject _ =>
    e0 ++ [chatErr, Event.setFlag "loading" false]
  | FetchResult.response ok body =>
    match body with
    | Except.error _ =>
      e0 ++ [chatErr, Event.setFlag "loading" false]
    | Except.ok b =>
      if ok then
        match b.responseText with
        | some resp =>
          if resp = "" then e0 ++ [Event.setFlag "loading" false]
          else e0 ++ [Event.chatAppend resp, Event.setFlag "loading" false]
        | none => e0 ++ [Event.setFlag "loading" false]
      else e0 ++ [Event.setFlag "loading" false]

/-- The confirmed branch of `handleDeleteSpace` from src/unnamed/part_004
(space detail screen): DELETE `/space/{id}` with bearer token; on success
navigate to `/tabs` then alert; on failure alert.  No loading flag is
touched on any path. -/
def handleDeleteSpaceConfirmed (token id : Option String) (res : FetchResult Unit) :
    List Event :=
  match token, id with
  | some tok, some i =>
    if tok = "" ∨ i = "" then [Event.alert "Error" "Authorization required"] else
    let e0 : List Event := [Event.request (Endpoint.spaceDelete i) (bearer tok)]
    match res with
    | FetchResult.reject _ =>
      e0 ++ [Event.alert "Error" "Failed to delete space. Please try again later."]
    | FetchResult.response ok _ =>
      if ok then
        e0 ++ [Event.navigate "/tabs", Event.alert "Success" "Space deleted successfully"]
      else
        e0 ++ [Event.alert "Error" "Failed to delete space. Please try again later."]
  | _, _ => [Event.alert "Error" "Authorization required"]

/-! ## `togglePatientSelection` (src/app/space/add.tsx) -/

/-- `togglePatientSelection` state update: remove the id if present
(`filter(id => id !== patientId)`), otherwise append it. -/
def togglePatientSelection (prevSelected : List String) (patientId : String) : List String :=
  if patientId ∈ prevSelected then
    prevSelected.filter (fun id => id ≠ patientId)
  else
    prevSelected ++ [patientId]

/-! ## Auxiliary definitions for the verification -/

/-- Generalised form of the recommendation loop: fold over draw indices,
appending `g i` when it is not yet present. -/
def dedupFold (g : Nat → String) (acc : List String) (l : List Nat) : List String :=
  l.foldl (fun acc i => if g i ∈ acc then acc else acc ++ [g i]) acc

/-- Whether a fetch returned ok and its body parsed. -/
def responseParsed {α : Type} : FetchResult α → Bool
  | FetchResult.response true (Except.ok _) => true
  | _ => false

/-- A draw sequence hitting the lowest score. -/
def mockRandLow : MockRand := ⟨0, 0, 0, 0, 0, fun _ => 0⟩

/-- A draw sequence hitting the highest score. -/
def mockRandHigh : MockRand := ⟨39, 0, 0, 0, 0, fun _ => 0⟩

/-- The auth context before any sign-in: nothing in memory or storage. -/
def emptyAuthState : AuthState := ⟨none, none, ⟨none, none⟩⟩

/-- A fully successful pair of sign-in responses. -/
def happySignIn : SignInInputs :=
  ⟨FetchResult.response true (Except.ok ⟨"tok123", "bearer"⟩),
   FetchResult.response true (Except.ok ⟨"u1", "a@b.c", "alice", "Alice", "A", none, none⟩)⟩

/-! ## Lemmas about the recommendation-selection fold -/

theorem selectRecommendations_eq_dedupFold (recR : Nat → Fin 8) (num : Nat) :
    selectRecommendations recR num
      = dedupFold (fun i => possibleRecommendations.getD (recR i).val "") [] (List.range num) :=
  rfl

theorem dedupFold_nodup (g : Nat → String) :
    ∀ (l : List Nat) (acc : List String), acc.Nodup → (dedupFold g acc l).Nodup := by
  intro l
  induction l with
  | nil => intro acc h; exact h
  | cons i t ih =>
    intro acc h
    simp only [dedupFold, List.foldl_cons]
    by_cases hmem : g i ∈ acc
    · simpa [hmem] using ih acc h
    · have : (acc ++ [g i]).Nodup := by
        simp [List.nodup_append, h, hmem]
      simpa [hmem] using ih (acc ++ [g i]) this

theorem dedupFold_length_mono (g : Nat → String) :
    ∀ (l : List Nat) (acc : List String), acc.length ≤ (dedupFold g acc l).length := by
  intro l
  induction l with
  | nil => intro acc; exact Nat.le_refl _
  | cons i t ih =>
    intro acc
    simp only [dedupFold, List.foldl_cons]
    by_cases hmem : g i ∈ acc
    · simpa [hmem] using ih acc
    · have h1 : acc.length ≤ (acc ++ [g i]).length := by
        simp
      exact le_trans h1 (by simpa [hmem] using ih (acc ++ [g i]))

theorem dedupFold_length_le (g : Nat → String) :
    ∀ (l : List Nat) (acc : List String), (dedupFold g acc l).length ≤ acc.length + l.length := by
  intro l
  induction l with
  | nil => intro acc; simp [dedupFold]
  | cons i t ih =>
    intro acc
    simp only [dedupFold, List.foldl_cons]
    by_cases hmem : g i ∈ acc
    · simp only [hmem, if_pos]
      calc (dedupFold g acc t).length ≤ acc.length + t.length := ih acc
        _ ≤ acc.length + (t.length + 1) := by omega
    · simp only [hmem, if_neg, not_false_iff]
      calc (dedupFold g (acc ++ [g i]) t).length
          ≤ (acc ++ [g i]).length + t.length := ih (acc ++ [g i])
        _ = acc.length + (t.length + 1) := by simp; omega

theorem dedupFold_ne_nil (g : Nat → String) (i : Nat) (t : List Nat) :
    1 ≤ (dedupFold g [] (i :: t)).length := by
  have : dedupFold g [] (i :: t) = dedupFold g [g i] t := by
    simp [dedupFold]
  rw [this]
  have := dedupFold_length_mono g t [g i]
  simpa using this

/-- C5: the shape of every `generateMockAnalysis` result: score in 60..99,
one high-priority hazard exactly when score < 70, one medium-priority hazard
exactly when score < 85, always exactly one low-priority hazard, and 1-4
recommendations without duplicates. -/
theorem generateMockAnalysis_shape (r : MockRand) :
    60 ≤ (generateMockAnalysis r).score ∧ (generateMockAnalysis r).score ≤ 99 ∧
    ((generateMockAnalysis r).hazard_list.high_priority ≠ [] ↔ (generateMockAnalysis r).score < 70) ∧
    ((generateMockAnalysis r).score < 70 → (generateMockAnalysis r).hazard_list.high_priority.length = 1) ∧
    ((generateMockAnalysis r).hazard_list.medium_priority ≠ [] ↔ (generateMockAnalysis r).score < 85) ∧
    ((generateMockAnalysis r).score < 85 → (generateMockAnalysis r).hazard_list.medium_priority.length = 1) ∧
    (generateMockAnalysis r).hazard_list.low_priority.length = 1 ∧
    1 ≤ (generateMockAnalysis r).recommendations.length ∧
    (generateMockAnalysis r).recommendations.length ≤ 4 ∧
    (generateMockAnalysis r).recommendations.Nodup := by
  have hscore : (generateMockAnalysis r).score = r.scoreR.val + 60 := rfl
  have hlt : r.scoreR.val < 40 := r.scoreR.isLt
  have hnum : r.numRecR.val < 3 := r.numRecR.isLt
  refine ⟨by omega, by omega, ?_, ?_, ?_, ?_, ?_, ?_, ?_, ?_⟩
  · by_cases h : r.scoreR.val + 60 < 70 <;>
      simp [generateMockAnalysis, hscore, h]
  · intro h
    rw [hscore] at h
    simp [generateMockAnalysis, h]
  · by_cases h : r.scoreR.val + 60 < 85 <;>
      simp [generateMockAnalysis, hscore, h]
  · intro h
    rw [hscore] at h
    simp [generateMockAnalysis, h]
  · simp [generateMockAnalysis]
  · show 1 ≤ (selectRecommendations r.recR (r.numRecR.val + 2)).length
    rw [selectRecommendations_eq_dedupFold]
    have hrange : List.range (r.numRecR.val + 2) = 0 :: (List.range (r.numRecR.val + 2)).tail := by
      cases hr : List.range (r.numRecR.val + 2) with
      | nil =>
        exfalso
        have := congrArg List.length hr
        simp at this
      | cons a t =>
        have : a = 0 := by
          have h2 : (List.range (r.numRecR.val + 2)).head? = some a := by rw [hr]; rfl
          have h3 := h2.symm
          simpa [List.head?_range] using h3
        simp [this, hr]
    rw [hrange]
    exact dedupFold_ne_nil _ _ _
  · show (selectRecommendations r.recR (r.numRecR.val + 2)).length ≤ 4
    rw [selectRecommendations_eq_dedupFold]
    have hle := dedupFold_length_le (fun i => possibleRecommendations.getD (r.recR i).val "")
      (List.range (r.numRecR.val + 2)) []
    simp only [List.length_nil, List.length_range, Nat.zero_add] at hle
    omega
  · show (selectRecommendations r.recR (r.numRecR.val + 2)).Nodup
    rw [selectRecommendations_eq_dedupFold]
    exact dedupFold_nodup _ _ _ List.nodup_nil

/-- C10: `togglePatientSelection` flips exactly the toggled id's membership,
is an involution up to membership, preserves the no-duplicates invariant and
leaves other ids untouched. -/
theorem togglePatientSelection_spec (l : List String) (pid : String) (h : l.Nodup) :
    (pid ∈ togglePatientSelection l pid ↔ pid ∉ l) ∧
    (∀ y, y ∈ togglePatientSelection (togglePatientSelection l pid) pid ↔ y ∈ l) ∧
    (togglePatientSelection l pid).Nodup ∧
    (∀ y, y ≠ pid → (y ∈ togglePatientSelection l pid ↔ y ∈ l)) := by
  by_cases hm : pid ∈ l
  · refine ⟨?_, ?_, ?_, ?_⟩
    · simp [togglePatientSelection, hm]
    · intro y
      by_cases hy : y = pid
      · subst hy
        simp [togglePatientSelection, hm]
      · simp [togglePatientSelection, hm, hy]
    · simp only [togglePatientSelection, hm, if_pos]
      exact h.filter _
    · intro y hy
      simp [togglePatientSelection, hm, hy]
  · refine ⟨?_, ?_, ?_, ?_⟩
    · simp [togglePatientSelection, hm]
    · intro y
      by_cases hy : y = pid
      · subst hy
        simp [togglePatientSelection, hm]
      · simp [togglePatientSelection, hm, hy]
    · simp [togglePatientSelection, hm, List.nodup_append, h]
    · intro y hy
      simp [togglePatientSelection, hm, hy]

/-- Witness for `togglePatientSelection_spec` at a concrete list and id. -/
theorem togglePatientSelection_spec_witness :
    (["a", "b"] : List String).Nodup ∧
    ("c" ∈ togglePatientSelection ["a", "b"] "c" ↔ "c" ∉ (["a", "b"] : List String)) ∧
    ("a" ∈ togglePatientSelection (togglePatientSelection ["a", "b"] "c") "c" ↔
      "a" ∈ (["a", "b"] : List String)) ∧
    (togglePatientSelection ["a", "b"] "c").Nodup :=
  ⟨by decide,
   (togglePatientSelection_spec ["a", "b"] "c" (by decide)).1,
   (togglePatientSelection_spec ["a", "b"] "c" (by decide)).2.1 "a",
   (togglePatientSelection_spec ["a", "b"] "c" (by decide)).2.2.1⟩

/-! ## C1: where the analysis values come from -/

/-- C1 counterexample: the assessment submission of the part_001 capture
screen does not carry only the image: its `score` field is computed
client-side by `generateMockAnalysis` from local random draws, so two
submissions of the same image differ. -/
theorem uploadPayload_client_computed_counterexample :
    (uploadPayload "space-1" "img-base64" "Living Room" mockRandLow).score = 60 ∧
    (uploadPayload "space-1" "img-base64" "Living Room" mockRandHigh).score = 99 ∧
    uploadPayload "space-1" "img-base64" "Living Room" mockRandLow ≠
      uploadPayload "space-1" "img-base64" "Living Room" mockRandHigh := by
  refine ⟨rfl, rfl, ?_⟩
  intro hEq
  exact absurd (congrArg UploadPayload.score hEq) (by decide)

/-- C1 amended: in the part_001 capture screen the score, hazard list,
recommendations and bounding-box info of the assessment submission are
computed client-side by the repository function `generateMockAnalysis`, and
`uploadImage` POSTs exactly that payload together with the image. -/
theorem uploadImage_submits_client_analysis
    (sid img nm tok : String) (r : MockRand) (res : FetchResult Unit)
    (himg : img ≠ "") (hsid : sid ≠ "") (htok : tok ≠ "") :
    (uploadPayload sid img nm r).score = (generateMockAnalysis r).score ∧
    (uploadPayload sid img nm r).hazard_list = (generateMockAnalysis r).hazard_list ∧
    (uploadPayload sid img nm r).recommendations = (generateMockAnalysis r).recommendations ∧
    (uploadPayload sid img nm r).bounding_box_info = (generateMockAnalysis r).bounding_box_info ∧
    (uploadImage (some img) (some sid) (some tok) nm r res).2 = some (uploadPayload sid img nm r) := by
  refine ⟨rfl, rfl, rfl, rfl, ?_⟩
  cases res with
  | reject m => simp [uploadImage, himg, hsid, htok]
  | response ok body => cases ok <;> simp [uploadImage, himg, hsid, htok]

/-- Witness for `uploadImage_submits_client_analysis` at concrete inputs. -/
theorem uploadImage_submits_client_analysis_witness :
    (uploadImage (some "i") (some "s1") (some "t") "Room" mockRandLow
        (FetchResult.response true (Except.ok ()))).2
      = some (uploadPayload "s1" "i" "Room" mockRandLow) :=
  (uploadImage_submits_client_analysis "s1" "i" "Room" "t" mockRandLow
    (FetchResult.response true (Except.ok ()))
    (by decide) (by decide) (by decide)).2.2.2.2

/-! ## C3: signIn never rejects -/

/-- C3: the promise returned by `signIn` always resolves, so `handleLogin`
always reaches the navigation to `/tabs` once validation passed, and a
failed sign-in leaves the auth state (in-memory user and token, secure
storage) exactly as it was. -/
theorem signIn_never_rejects (u p : String) (inp : SignInInputs) (st : AuthState)
    (hu : jsTrim u ≠ "") (hp : jsTrim p ≠ "") :
    (signIn inp st).threw = false ∧
    Event.navigate "/tabs" ∈ (handleLogin u p inp st).1 ∧
    (signInSucceeds inp = false → (signIn inp st).state = st) := by
  rcases inp with ⟨lr, mr⟩
  cases lr with
  | reject m => simp [signIn, handleLogin, signInSucceeds, hu, hp]
  | response ok body =>
    cases ok with
    | false => cases body <;> simp [signIn, handleLogin, signInSucceeds, hu, hp]
    | true =>
      cases body with
      | error m => simp [signIn, handleLogin, signInSucceeds, hu, hp]
      | ok lb =>
        cases mr with
        | reject m2 => simp [signIn, handleLogin, signInSucceeds, hu, hp]
        | response mok mbody =>
          cases mok with
          | false => cases mbody <;> simp [signIn, handleLogin, signInSucceeds, hu, hp]
          | true => cases mbody <;> simp [signIn, handleLogin, signInSucceeds, hu, hp]

/-- Witness for `signIn_never_rejects`: a sign-in whose login request fails
on the network still resolves, navigates, and leaves the state untouched. -/
theorem signIn_never_rejects_witness :
    (signIn ⟨FetchResult.reject "net", FetchResult.reject "net"⟩ emptyAuthState).threw = false ∧
    Event.navigate "/tabs" ∈
      (handleLogin "user" "pw" ⟨FetchResult.reject "net", FetchResult.reject "net"⟩ emptyAuthState).1 ∧
    (signInSucceeds ⟨FetchResult.reject "net", FetchResult.reject "net"⟩ = false →
      (signIn ⟨FetchResult.reject "net", FetchResult.reject "net"⟩ emptyAuthState).state
        = emptyAuthState) :=
  signIn_never_rejects "user" "pw" ⟨FetchResult.reject "net", FetchResult.reject "net"⟩
    emptyAuthState (by decide) (by decide)

/-! ## C4: what outlives the component -/

/-- C4 counterexample: a successful sign-in persists the session token in
secure storage, so client state does outlive the component: starting from
empty storage, `signIn` leaves `userToken` set and its trace contains
secure-storage writes. -/
theorem session_persisted_counterexample :
    (signIn happySignIn emptyAuthState).state.storage ≠ emptyAuthState.storage ∧
    (signIn happySignIn emptyAuthState).state.storage.userToken = some "tok123" ∧
    hasStoreWrite (signIn happySignIn emptyAuthState).events = true := by
  refine ⟨?_, rfl, rfl⟩
  intro h
  exact absurd (congrArg Storage.userToken h) (by decide)

theorem fetchSpaces_no_store (t : Option String) (u : Option UserRec)
    (r : FetchResult (List SpaceRec)) : hasStoreWrite (fetchSpaces t u r).1 = false := by
  cases t with
  | none => cases u <;> simp [fetchSpaces, hasStoreWrite]
  | some tok =>
    cases u with
    | none => simp [fetchSpaces, hasStoreWrite]
    | some usr =>
      by_cases htok : tok = "" <;>
        cases r with
        | reject m => simp [fetchSpaces, hasStoreWrite, htok]
        | response ok body => cases ok <;> cases body <;> simp [fetchSpaces, hasStoreWrite, htok]

theorem fetchSpaceDetails_no_store (t i : Option String)
    (sr : FetchResult SpaceRec) (lr : FetchResult (List SpaceLogRec)) :
    hasStoreWrite (fetchSpaceDetails t i sr lr).1 = false := by
  cases t with
  | none => cases i <;> simp [fetchSpaceDetails, hasStoreWrite]
  | some tok =>
    cases i with
    | none => simp [fetchSpaceDetails, hasStoreWrite]
    | some idv =>
      by_cases hg : tok = "" ∨ idv = ""
      · simp [fetchSpaceDetails, hg, hasStoreWrite]
      · cases sr with
        | reject m => simp [fetchSpaceDetails, hasStoreWrite, hg]
        | response ok body =>
          cases ok with
          | false => cases body <;> simp [fetchSpaceDetails, hasStoreWrite, hg]
          | true =>
            cases body with
            | error m => simp [fetchSpaceDetails, hasStoreWrite, hg]
            | ok sp =>
              cases lr with
              | reject m2 => simp [fetchSpaceDetails, hasStoreWrite, hg]
              | response lok lbody =>
                cases lok <;> cases lbody <;> simp [fetchSpaceDetails, hasStoreWrite, hg]

theorem fetchLogDetails_no_store (t i : Option String) (r : FetchResult SpaceLogRec) :
    hasStoreWrite (fetchLogDetails t i r).1 = false := by
  cases t with
  | none => cases i <;> simp [fetchLogDetails, hasStoreWrite]
  | some tok =>
    cases i with
    | none => simp [fetchLogDetails, hasStoreWrite]
    | some lid =>
      by_cases hg : tok = "" ∨ lid = ""
      · simp [fetchLogDetails, hg, hasStoreWrite]
      · cases r with
        | reject m => simp [fetchLogDetails, hasStoreWrite, hg]
        | response ok body => cases ok <;> cases body <;> simp [fetchLogDetails, hasStoreWrite, hg]

theorem fetchPatients_no_store (t : Option String) (r : FetchResult (List PatientRec)) :
    hasStoreWrite (fetchPatients t r).1 = false := by
  cases t with
  | none => simp [fetchPatients, hasStoreWrite]
  | some tok =>
    by_cases htok : tok = "" <;>
      cases r with
      | reject m => simp [fetchPatients, hasStoreWrite, htok]
      | response ok body => cases ok <;> cases body <;> simp [fetchPatients, hasStoreWrite, htok]

theorem handleSubmitCreateSpace_no_store (nm : String) (t : Option String)
    (u : Option UserRec) (r : FetchResult DetailBody) :
    hasStoreWrite (handleSubmitCreateSpace nm t u r) = false := by
  by_cases hnm : jsTrim nm = ""
  · simp [handleSubmitCreateSpace, hnm, hasStoreWrite]
  · cases t with
    | none => cases u <;> simp [handleSubmitCreateSpace, hnm, hasStoreWrite]
    | some tok =>
      cases u with
      | none => simp [handleSubmitCreateSpace, hnm, hasStoreWrite]
      | some usr =>
        by_cases htok : tok = "" <;>
          cases r with
          | reject m => simp [handleSubmitCreateSpace, hnm, hasStoreWrite, htok]
          | response ok body =>
            cases ok <;> cases body <;> simp [handleSubmitCreateSpace, hnm, hasStoreWrite, htok]

theorem uploadImage_no_store (img sid t : Option String) (nm : String)
    (r : MockRand) (res : FetchResult Unit) :
    hasStoreWrite (uploadImage img sid t nm r res).1 = false := by
  cases img with
  | none => cases sid <;> cases t <;> simp [uploadImage, hasStoreWrite]
  | some iv =>
    cases sid with
    | none => cases t <;> simp [uploadImage, hasStoreWrite]
    | some sv =>
      cases t with
      | none => simp [uploadImage, hasStoreWrite]
      | some tv =>
        by_cases hg : iv = "" ∨ sv = "" ∨ tv = ""
        · simp [uploadImage, hg, hasStoreWrite]
        · cases res with
          | reject m => simp [uploadImage, hasStoreWrite, hg]
          | response ok body => cases ok <;> simp [uploadImage, hasStoreWrite, hg]

theorem onSend_no_store (t : Option String) (msg : String) (r : FetchResult ChatBody) :
    hasStoreWrite (onSend t msg r) = false := by
  cases r with
  | reject m => simp [onSend, hasStoreWrite]
  | response ok body =>
    cases ok with
    | false => cases body <;> simp [onSend, hasStoreWrite]
    | true =>
      cases body with
      | error m => simp [onSend, hasStoreWrite]
      | ok b =>
        rcases b with ⟨rt, hist⟩
        cases rt with
        | none => simp [onSend, hasStoreWrite]
        | some s => by_cases hs : s = "" <;> simp [onSend, hasStoreWrite, hs]

theorem handleDeleteSpaceConfirmed_no_store (t i : Option String) (r : FetchResult Unit) :
    hasStoreWrite (handleDeleteSpaceConfirmed t i r) = false := by
  cases t with
  | none => cases i <;> simp [handleDeleteSpaceConfirmed, hasStoreWrite]
  | some tok =>
    cases i with
    | none => simp [handleDeleteSpaceConfirmed, hasStoreWrite]
    | some idv =>
      by_cases hg : tok = "" ∨ idv = ""
      · simp [handleDeleteSpaceConfirmed, hg, hasStoreWrite]
      · cases r with
        | reject m => simp [handleDeleteSpaceConfirmed, hasStoreWrite, hg]
        | response ok body => cases ok <;> simp [handleDeleteSpaceConfirmed, hasStoreWrite, hg]

/-- After a successful sign-in: the in-memory token, the stored token and
the stored user record all hold the fresh session. -/
theorem signIn_success_state (inp : SignInInputs) (st : AuthState) (tk : String)
    (hsucc : signInSucceeds inp = true) (htk : signInToken inp = some tk) :
    ∃ u, (signIn inp st).state.user = some u ∧
      (signIn inp st).state.token = some tk ∧
      (signIn inp st).state.storage = ⟨some tk, some u⟩ := by
  rcases inp with ⟨lr, mr'⟩
  cases lr with
  | reject m => simp [signInSucceeds] at hsucc
  | response ok body =>
    cases ok with
    | false => simp [signInSucceeds] at hsucc
    | true =>
      cases body with
      | error m => simp [signInSucceeds] at hsucc
      | ok lb =>
        cases mr' with
        | reject m2 => simp [signInSucceeds] at hsucc
        | response mok mbody =>
          cases mok with
          | false => simp [signInSucceeds] at hsucc
          | true =>
            cases mbody with
            | error m2 => simp [signInSucceeds] at hsucc
            | ok ub =>
              simp [signInToken] at htk
              exact ⟨formatUser ub, by simp [signIn], by simp [signIn, htk], by simp [signIn, htk]⟩

/-- C4 amended: Space, Patient and SpaceLog data lives only in component
state: no screen operation writes secure storage.  The User/session token is
the exception: a successful `signIn` persists it to secure storage, where
`loadToken` restores it on the next app start, outliving every component. -/
theorem entities_component_local_except_session
    (t i : Option String) (u : Option UserRec) (nm : String) (mr : MockRand)
    (r1 : FetchResult (List SpaceRec)) (r2 : FetchResult SpaceRec)
    (r3 : FetchResult (List SpaceLogRec)) (r4 : FetchResult SpaceLogRec)
    (r5 : FetchResult (List PatientRec)) (r6 : FetchResult DetailBody)
    (r7 : FetchResult Unit) (r8 : FetchResult ChatBody) (r9 : FetchResult Unit)
    (inp : SignInInputs) (st : AuthState) (tk : String)
    (hsucc : signInSucceeds inp = true) (htk : signInToken inp = some tk) (hne : tk ≠ "") :
    hasStoreWrite (fetchSpaces t u r1).1 = false ∧
    hasStoreWrite (fetchSpaceDetails t i r2 r3).1 = false ∧
    hasStoreWrite (fetchLogDetails t i r4).1 = false ∧
    hasStoreWrite (fetchPatients t r5).1 = false ∧
    hasStoreWrite (handleSubmitCreateSpace nm t u r6) = false ∧
    hasStoreWrite (uploadImage i t t nm mr r7).1 = false ∧
    hasStoreWrite (onSend t nm r8) = false ∧
    hasStoreWrite (handleDeleteSpaceConfirmed t i r9) = false ∧
    (signIn inp st).state.storage.userToken = some tk ∧
    loadToken (signIn inp st).state.storage = (some tk, (signIn inp st).state.user) := by
  obtain ⟨uRec, hu, hTok, hStore⟩ := signIn_success_state inp st tk hsucc htk
  refine ⟨fetchSpaces_no_store t u r1, fetchSpaceDetails_no_store t i r2 r3,
    fetchLogDetails_no_store t i r4, fetchPatients_no_store t r5,
    handleSubmitCreateSpace_no_store nm t u r6, uploadImage_no_store i t t nm mr r7,
    onSend_no_store t nm r8, handleDeleteSpaceConfirmed_no_store t i r9, ?_, ?_⟩
  · rw [hStore]
  · rw [hStore, hu]
    simp [loadToken, hne]

/-- Witness for `entities_component_local_except_session` at concrete
inputs: a successful sign-in with token `tok123`. -/
theorem entities_component_local_except_session_witness :
    (signIn happySignIn emptyAuthState).state.storage.userToken = some "tok123" ∧
    loadToken (signIn happySignIn emptyAuthState).state.storage
      = (some "tok123", (signIn happySignIn emptyAuthState).state.user) :=
  ⟨(entities_component_local_except_session none none none "x" mockRandLow
      (FetchResult.reject "e") (FetchResult.reject "e") (FetchResult.reject "e")
      (FetchResult.reject "e") (FetchResult.reject "e") (FetchResult.reject "e")
      (FetchResult.reject "e") (FetchResult.reject "e") (FetchResult.reject "e")
      happySignIn emptyAuthState "tok123" rfl rfl (by decide)).2.2.2.2.2.2.2.2.1,
   (entities_component_local_except_session none none none "x" mockRandLow
      (FetchResult.reject "e") (FetchResult.reject "e") (FetchResult.reject "e")
      (FetchResult.reject "e") (FetchResult.reject "e") (FetchResult.reject "e")
      (FetchResult.reject "e") (FetchResult.reject "e") (FetchResult.reject "e")
      happySignIn emptyAuthState "tok123" rfl rfl (by decide)).2.2.2.2.2.2.2.2.2⟩

/-! ## C2: alerts on non-2xx responses -/

theorem signIn_alert_on_login_fail (body : Except String LoginBody)
    (mr : FetchResult MeBody) (st : AuthState) :
    hasAlert (signIn ⟨FetchResult.response false body, mr⟩ st).events = true := by
  cases body <;> simp [signIn, hasAlert]

theorem signIn_alert_on_me_fail (lb : LoginBody) (mbody : Except String MeBody)
    (st : AuthState) :
    hasAlert (signIn ⟨FetchResult.response true (Except.ok lb),
      FetchResult.response false mbody⟩ st).events = true := by
  cases mbody <;> simp [signIn, hasAlert]

theorem signUp_alert_on_fail (body : Except String DetailBody) :
    hasAlert (signUp (FetchResult.response false body)).1 = true := by
  cases body <;> simp [signUp, hasAlert]

theorem fetchSpaces_alert_on_fail (tok : String) (u : UserRec)
    (body : Except String (List SpaceRec)) (htok : tok ≠ "") :
    hasAlert (fetchSpaces (some tok) (some u) (FetchResult.response false body)).1 = true := by
  simp [fetchSpaces, hasAlert, htok]

theorem fetchSpaceDetails_alert_on_space_fail (tok i : String)
    (body : Except String SpaceRec) (lr : FetchResult (List SpaceLogRec))
    (htok : tok ≠ "") (hi : i ≠ "") :
    hasAlert (fetchSpaceDetails (some tok) (some i)
      (FetchResult.response false body) lr).1 = true := by
  have hg : ¬(tok = "" ∨ i = "") := by simp [htok, hi]
  simp [fetchSpaceDetails, hasAlert, hg]

theorem fetchSpaceDetails_alert_on_logs_fail (tok i : String) (sp : SpaceRec)
    (lbody : Except String (List SpaceLogRec)) (htok : tok ≠ "") (hi : i ≠ "") :
    hasAlert (fetchSpaceDetails (some tok) (some i)
      (FetchResult.response true (Except.ok sp))
      (FetchResult.response false lbody)).1 = true := by
  have hg : ¬(tok = "" ∨ i = "") := by simp [htok, hi]
  simp [fetchSpaceDetails, hasAlert, hg]

theorem fetchLogDetails_alert_on_fail (tok lid : String)
    (body : Except String SpaceLogRec) (htok : tok ≠ "") (hlid : lid ≠ "") :
    hasAlert (fetchLogDetails (some tok) (some lid)
      (FetchResult.response false body)).1 = true := by
  have hg : ¬(tok = "" ∨ lid = "") := by simp [htok, hlid]
  simp [fetchLogDetails, hasAlert, hg]

theorem fetchPatients_alert_on_fail (tok : String)
    (body : Except String (List PatientRec)) (htok : tok ≠ "") :
    hasAlert (fetchPatients (some tok) (FetchResult.response false body)).1 = true := by
  simp [fetchPatients, hasAlert, htok]

theorem handleSubmitCreateSpace_alert_on_fail (nm tok : String) (u : UserRec)
    (body : Except String DetailBody) (hnm : jsTrim nm ≠ "") (htok : tok ≠ "") :
    hasAlert (handleSubmitCreateSpace nm (some tok) (some u)
      (FetchResult.response false body)) = true := by
  cases body <;> simp [handleSubmitCreateSpace, hasAlert, hnm, htok]

theorem uploadImage_alert_on_fail (img sid tok nm : String) (r : MockRand)
    (body : Except String Unit) (himg : img ≠ "") (hsid : sid ≠ "") (htok : tok ≠ "") :
    hasAlert (uploadImage (some img) (some sid) (some tok) nm r
      (FetchResult.response false body)).1 = true := by
  have hg : ¬(img = "" ∨ sid = "" ∨ tok = "") := by simp [himg, hsid, htok]
  simp [uploadImage, hasAlert, hg]

theorem handleDeleteSpaceConfirmed_alert_on_fail (tok i : String)
    (body : Except String Unit) (htok : tok ≠ "") (hi : i ≠ "") :
    hasAlert (handleDeleteSpaceConfirmed (some tok) (some i)
      (FetchResult.response false body)) = true := by
  have hg : ¬(tok = "" ∨ i = "") := by simp [htok, hi]
  simp [handleDeleteSpaceConfirmed, hasAlert, hg]

theorem onSend_no_alert_on_non2xx (tok : Option String) (msg : String) (b : ChatBody) :
    hasAlert (onSend tok msg (FetchResult.response false (Except.ok b))) = false := by
  simp [onSend, hasAlert]

theorem onSend_chat_error_on_reject (tok : Option String) (msg m : String) :
    hasAlert (onSend tok msg (FetchResult.reject m)) = false ∧
    Event.chatAppend "Sorry, there was an error processing your request. Please try again."
      ∈ onSend tok msg (FetchResult.reject m) := by
  constructor
  · simp [onSend, hasAlert]
  · simp [onSend]

/-- C2 counterexample: the chat screen's `onSend` issues an HTTP request,
but a non-2xx response with a parseable body neither throws nor shows any
alert: the trace carries the request and no alert event at all. -/
theorem onSend_silent_non2xx_counterexample :
    hasAlert (onSend (some "t") "hello"
      (FetchResult.response false (Except.ok ⟨some "resp", []⟩))) = false ∧
    requestsOf (onSend (some "t") "hello"
      (FetchResult.response false (Except.ok ⟨some "resp", []⟩)))
      = [Endpoint.chatConversation] := by
  exact ⟨rfl, rfl⟩

/-- C2 amended: every screen operation that issues an HTTP request and
inspects the status shows a user-facing alert on a non-2xx response —
except the chat screen's `onSend`, which silently ignores a non-2xx
response whose body parses and appends an in-chat error message (never an
alert) only when the fetch or the body parse rejects. -/
theorem non2xx_alert_behaviour (st : AuthState)
    (mr : FetchResult MeBody) (lbody : Except String LoginBody) (lb : LoginBody)
    (mbody : Except String MeBody) (rbody : Except String DetailBody)
    (tok i lid nm img sid msg m : String) (u : UserRec)
    (slist : Except String (List SpaceRec))
    (sbody : Except String SpaceRec) (sp : SpaceRec)
    (logsBody : Except String (List SpaceLogRec)) (logBody : Except String SpaceLogRec)
    (pbody : Except String (List PatientRec)) (cbody : Except String DetailBody)
    (ubody dbody : Except String Unit) (cb : ChatBody) (r : MockRand)
    (htok : tok ≠ "") (hi : i ≠ "") (hlid : lid ≠ "") (hnm : jsTrim nm ≠ "")
    (himg : img ≠ "") (hsid : sid ≠ "") :
    hasAlert (signIn ⟨FetchResult.response false lbody, mr⟩ st).events = true ∧
    hasAlert (signIn ⟨FetchResult.response true (Except.ok lb),
      FetchResult.response false mbody⟩ st).events = true ∧
    hasAlert (signUp (FetchResult.response false rbody)).1 = true ∧
    hasAlert (fetchSpaces (some tok) (some u) (FetchResult.response false slist)).1 = true ∧
    hasAlert (fetchSpaceDetails (some tok) (some i)
      (FetchResult.response false sbody) (FetchResult.response false logsBody)).1 = true ∧
    hasAlert (fetchSpaceDetails (some tok) (some i)
      (FetchResult.response true (Except.ok sp))
      (FetchResult.response false logsBody)).1 = true ∧
    hasAlert (fetchLogDetails (some tok) (some lid)
      (FetchResult.response false logBody)).1 = true ∧
    hasAlert (fetchPatients (some tok) (FetchResult.response false pbody)).1 = true ∧
    hasAlert (handleSubmitCreateSpace nm (some tok) (some u)
      (FetchResult.response false cbody)) = true ∧
    hasAlert (uploadImage (some img) (some sid) (some tok) nm r
      (FetchResult.response false ubody)).1 = true ∧
    hasAlert (handleDeleteSpaceConfirmed (some tok) (some i)
      (FetchResult.response false dbody)) = true ∧
    hasAlert (onSend (some tok) msg (FetchResult.response false (Except.ok cb))) = false ∧
    hasAlert (onSend (some tok) msg (FetchResult.reject m)) = false ∧
    Event.chatAppend "Sorry, there was an error processing your request. Please try again."
      ∈ onSend (some tok) msg (FetchResult.reject m) :=
  ⟨signIn_alert_on_login_fail lbody mr st,
   signIn_alert_on_me_fail lb mbody st,
   signUp_alert_on_fail rbody,
   fetchSpaces_alert_on_fail tok u slist htok,
   fetchSpaceDetails_alert_on_space_fail tok i sbody (FetchResult.response false logsBody) htok hi,
   fetchSpaceDetails_alert_on_logs_fail tok i sp logsBody htok hi,
   fetchLogDetails_alert_on_fail tok lid logBody htok hlid,
   fetchPatients_alert_on_fail tok pbody htok,
   handleSubmitCreateSpace_alert_on_fail nm tok u cbody hnm htok,
   uploadImage_alert_on_fail img sid tok nm r ubody himg hsid htok,
   handleDeleteSpaceConfirmed_alert_on_fail tok i dbody htok hi,
   onSend_no_alert_on_non2xx (some tok) msg cb,
   (onSend_chat_error_on_reject (some tok) msg m).1,
   (onSend_chat_error_on_reject (some tok) msg m).2⟩

/-- Witness for `non2xx_alert_behaviour` at concrete inputs. -/
theorem non2xx_alert_behaviour_witness :
    hasAlert (fetchSpaces (some "t") (some ⟨"u1", "a@b.c", "A", "B", "ab", none, none⟩)
      (FetchResult.response false (Except.ok []))).1 = true ∧
    hasAlert (onSend (some "t") "hi"
      (FetchResult.response false (Except.ok ⟨some "r", []⟩))) = false :=
  ⟨(non2xx_alert_behaviour emptyAuthState (FetchResult.reject "e") (Except.ok ⟨"tk", "b"⟩)
      ⟨"tk", "b"⟩ (Except.error "e") (Except.ok ⟨none⟩) "t" "i" "l" "n" "im" "s" "hi" "m"
      ⟨"u1", "a@b.c", "A", "B", "ab", none, none⟩ (Except.ok [])
      (Except.ok ⟨"s", "nm", "d", "c"⟩) ⟨"s", "nm", "d", "c"⟩
      (Except.ok []) (Except.error "e") (Except.ok []) (Except.ok ⟨none⟩)
      (Except.ok ()) (Except.ok ()) ⟨some "r", []⟩ mockRandLow
      (by decide) (by decide) (by decide) (by decide) (by decide) (by decide)).2.2.2.1,
   (non2xx_alert_behaviour emptyAuthState (FetchResult.reject "e") (Except.ok ⟨"tk", "b"⟩)
      ⟨"tk", "b"⟩ (Except.error "e") (Except.ok ⟨none⟩) "t" "i" "l" "n" "im" "s" "hi" "m"
      ⟨"u1", "a@b.c", "A", "B", "ab", none, none⟩ (Except.ok [])
      (Except.ok ⟨"s", "nm", "d", "c"⟩) ⟨"s", "nm", "d", "c"⟩
      (Except.ok []) (Except.error "e") (Except.ok []) (Except.ok ⟨none⟩)
      (Except.ok ()) (Except.ok ()) ⟨some "r", []⟩ mockRandLow
      (by decide) (by decide) (by decide) (by decide) (by decide) (by decide)).2.2.2.2.2.2.2.2.2.2.2.1⟩

/-! ## C6: bearer tokens on authenticated endpoints -/

theorem fetchSpaces_authed (tok : String) (u : UserRec) (r : FetchResult (List SpaceRec)) :
    allAuthed tok (fetchSpaces (some tok) (some u) r).1 = true := by
  by_cases htok : tok = ""
  · simp [fetchSpaces, htok, allAuthed]
  · cases r with
    | reject m => simp [fetchSpaces, htok, allAuthed, bearer]
    | response ok body =>
      cases ok <;> cases body <;> simp [fetchSpaces, htok, allAuthed, bearer]

theorem fetchSpaceDetails_authed (tok i : String)
    (sr : FetchResult SpaceRec) (lr : FetchResult (List SpaceLogRec)) :
    allAuthed tok (fetchSpaceDetails (some tok) (some i) sr lr).1 = true := by
  by_cases hg : tok = "" ∨ i = ""
  · simp [fetchSpaceDetails, hg, allAuthed]
  · cases sr with
    | reject m => simp [fetchSpaceDetails, hg, allAuthed, bearer]
    | response ok body =>
      cases ok with
      | false => cases body <;> simp [fetchSpaceDetails, hg, allAuthed, bearer]
      | true =>
        cases body with
        | error m => simp [fetchSpaceDetails, hg, allAuthed, bearer]
        | ok sp =>
          cases lr with
          | reject m2 => simp [fetchSpaceDetails, hg, allAuthed, bearer]
          | response lok lbody =>
            cases lok <;> cases lbody <;> simp [fetchSpaceDetails, hg, allAuthed, bearer]

theorem fetchLogDetails_authed (tok lid : String) (r : FetchResult SpaceLogRec) :
    allAuthed tok (fetchLogDetails (some tok) (some lid) r).1 = true := by
  by_cases hg : tok = "" ∨ lid = ""
  · simp [fetchLogDetails, hg, allAuthed]
  · cases r with
    | reject m => simp [fetchLogDetails, hg, allAuthed, bearer]
    | response ok body =>
      cases ok <;> cases body <;> simp [fetchLogDetails, hg, allAuthed, bearer]

theorem fetchPatients_authed (tok : String) (r : FetchResult (List PatientRec)) :
    allAuthed tok (fetchPatients (some tok) r).1 = true := by
  by_cases htok : tok = ""
  · simp [fetchPatients, htok, allAuthed]
  · cases r with
    | reject m => simp [fetchPatients, htok, allAuthed, bearer]
    | response ok body =>
      cases ok <;> cases body <;> simp [fetchPatients, htok, allAuthed, bearer]

theorem handleSubmitCreateSpace_authed (nm tok : String) (u : UserRec)
    (r : FetchResult DetailBody) :
    allAuthed tok (handleSubmitCreateSpace nm (some tok) (some u) r) = true := by
  by_cases hnm : jsTrim nm = ""
  · simp [handleSubmitCreateSpace, hnm, allAuthed]
  · by_cases htok : tok = ""
    · simp [handleSubmitCreateSpace, hnm, htok, allAuthed]
    · cases r with
      | reject m => simp [handleSubmitCreateSpace, hnm, htok, allAuthed, bearer]
      | response ok body =>
        cases ok <;> cases body <;>
          simp [handleSubmitCreateSpace, hnm, htok, allAuthed, bearer]

theorem uploadImage_authed (img sid tok nm : String) (r : MockRand)
    (res : FetchResult Unit) :
    allAuthed tok (uploadImage (some img) (some sid) (some tok) nm r res).1 = true := by
  by_cases hg : img = "" ∨ sid = "" ∨ tok = ""
  · simp [uploadImage, hg, allAuthed]
  · cases res with
    | reject m => simp [uploadImage, hg, allAuthed, bearer]
    | response ok body => cases ok <;> simp [uploadImage, hg, allAuthed, bearer]

/-- C6: after a successful sign-in the session token sits in secure
storage, and every request the listed authenticated operations issue (space
listing, space details, log retrieval, patient listing, space creation, log
creation) carries `Authorization: Bearer <token>`. -/
theorem token_stored_and_attached (inp : SignInInputs) (st : AuthState) (tk : String)
    (tok i lid nm img sid : String) (u : UserRec) (mr2 : MockRand)
    (r1 : FetchResult (List SpaceRec)) (r2 : FetchResult SpaceRec)
    (r3 : FetchResult (List SpaceLogRec)) (r4 : FetchResult SpaceLogRec)
    (r5 : FetchResult (List PatientRec)) (r6 : FetchResult DetailBody)
    (r7 : FetchResult Unit)
    (hsucc : signInSucceeds inp = true) (htk : signInToken inp = some tk) :
    (signIn inp st).state.storage.userToken = some tk ∧
    allAuthed tok (fetchSpaces (some tok) (some u) r1).1 = true ∧
    allAuthed tok (fetchSpaceDetails (some tok) (some i) r2 r3).1 = true ∧
    allAuthed tok (fetchLogDetails (some tok) (some lid) r4).1 = true ∧
    allAuthed tok (fetchPatients (some tok) r5).1 = true ∧
    allAuthed tok (handleSubmitCreateSpace nm (some tok) (some u) r6) = true ∧
    allAuthed tok (uploadImage (some img) (some sid) (some tok) nm mr2 r7).1 = true := by
  obtain ⟨uRec, hu, hTok, hStore⟩ := signIn_success_state inp st tk hsucc htk
  exact ⟨by rw [hStore], fetchSpaces_authed tok u r1, fetchSpaceDetails_authed tok i r2 r3,
    fetchLogDetails_authed tok lid r4, fetchPatients_authed tok r5,
    handleSubmitCreateSpace_authed nm tok u r6, uploadImage_authed img sid tok nm mr2 r7⟩

/-- Witness for `token_stored_and_attached` at concrete inputs. -/
theorem token_stored_and_attached_witness :
    (signIn happySignIn emptyAuthState).state.storage.userToken = some "tok123" ∧
    allAuthed "tok123" (fetchSpaces (some "tok123")
      (some ⟨"u1", "a@b.c", "A", "B", "ab", none, none⟩)
      (FetchResult.response true (Except.ok []))).1 = true :=
  ⟨(token_stored_and_attached happySignIn emptyAuthState "tok123" "tok123" "i" "l" "n"
      "im" "s" ⟨"u1", "a@b.c", "A", "B", "ab", none, none⟩ mockRandLow
      (FetchResult.response true (Except.ok [])) (FetchResult.reject "e")
      (FetchResult.reject "e") (FetchResult.reject "e") (FetchResult.reject "e")
      (FetchResult.reject "e") (FetchResult.reject "e") rfl rfl).1,
   (token_stored_and_attached happySignIn emptyAuthState "tok123" "tok123" "i" "l" "n"
      "im" "s" ⟨"u1", "a@b.c", "A", "B", "ab", none, none⟩ mockRandLow
      (FetchResult.response true (Except.ok [])) (FetchResult.reject "e")
      (FetchResult.reject "e") (FetchResult.reject "e") (FetchResult.reject "e")
      (FetchResult.reject "e") (FetchResult.reject "e") rfl rfl).2.1⟩

/-! ## C7: requests are awaited in sequence -/

/-- C7: `signIn` issues `/user/me` exactly when `/user/login` returned ok
and parsed, after it; `fetchSpaceDetails` issues the space-logs request
exactly when the space-details request returned ok and parsed, after it;
each operation's request trace is the sequential list shown, so no endpoint
is requested concurrently or cancelled. -/
theorem requests_sequential (inp : SignInInputs) (st : AuthState)
    (tok i : String) (htok : tok ≠ "") (hi : i ≠ "")
    (sr : FetchResult SpaceRec) (lr : FetchResult (List SpaceLogRec)) :
    requestsOf (signIn inp st).events
      = (if responseParsed inp.loginRes then [Endpoint.userLogin, Endpoint.userMe]
         else [Endpoint.userLogin]) ∧
    requestsOf (fetchSpaceDetails (some tok) (some i) sr lr).1
      = (if responseParsed sr then [Endpoint.spaceDetail i, Endpoint.spaceLogsOfSpace i]
         else [Endpoint.spaceDetail i]) := by
  have hg : ¬(tok = "" ∨ i = "") := by simp [htok, hi]
  constructor
  · rcases inp with ⟨lr', mr'⟩
    cases lr' with
    | reject m => simp [signIn, requestsOf, responseParsed]
    | response ok body =>
      cases ok with
      | false => cases body <;> simp [signIn, requestsOf, responseParsed]
      | true =>
        cases body with
        | error m => simp [signIn, requestsOf, responseParsed]
        | ok lb =>
          cases mr' with
          | reject m2 => simp [signIn, requestsOf, responseParsed]
          | response mok mbody =>
            cases mok <;> cases mbody <;> simp [signIn, requestsOf, responseParsed]
  · cases sr with
    | reject m => simp [fetchSpaceDetails, hg, requestsOf, responseParsed]
    | response ok body =>
      cases ok with
      | false => cases body <;> simp [fetchSpaceDetails, hg, requestsOf, responseParsed]
      | true =>
        cases body with
        | error m => simp [fetchSpaceDetails, hg, requestsOf, responseParsed]
        | ok sp =>
          cases lr with
          | reject m2 => simp [fetchSpaceDetails, hg, requestsOf, responseParsed]
          | response lok lbody =>
            cases lok <;> cases lbody <;>
              simp [fetchSpaceDetails, hg, requestsOf, responseParsed]

/-- Witness for `requests_sequential`: with a failing login response only
`/user/login` is requested; with a parsed space response both space
requests occur in order. -/
theorem requests_sequential_witness :
    requestsOf (signIn ⟨FetchResult.reject "net", FetchResult.reject "net"⟩ emptyAuthState).events
      = [Endpoint.userLogin] ∧
    requestsOf (fetchSpaceDetails (some "t") (some "s1")
      (FetchResult.response true (Except.ok ⟨"s1", "nm", "d", "c"⟩))
      (FetchResult.response true (Except.ok []))).1
      = [Endpoint.spaceDetail "s1", Endpoint.spaceLogsOfSpace "s1"] :=
  ⟨(requests_sequential ⟨FetchResult.reject "net", FetchResult.reject "net"⟩ emptyAuthState
      "t" "s1" (by decide) (by decide)
      (FetchResult.response true (Except.ok ⟨"s1", "nm", "d", "c"⟩))
      (FetchResult.response true (Except.ok []))).1,
   (requests_sequential ⟨FetchResult.reject "net", FetchResult.reject "net"⟩ emptyAuthState
      "t" "s1" (by decide) (by decide)
      (FetchResult.response true (Except.ok ⟨"s1", "nm", "d", "c"⟩))
      (FetchResult.response true (Except.ok []))).2⟩

/-! ## C8: loading-flag discipline -/

theorem flagOk_signIn (inp : SignInInputs) (st : AuthState) :
    flagOk (signIn inp st).events = true := by
  rcases inp with ⟨lr, mr'⟩
  cases lr with
  | reject m => simp [signIn, flagOk, flagOkAux]
  | response ok body =>
    cases ok with
    | false => cases body <;> simp [signIn, flagOk, flagOkAux]
    | true =>
      cases body with
      | error m => simp [signIn, flagOk, flagOkAux]
      | ok lb =>
        cases mr' with
        | reject m2 => simp [signIn, flagOk, flagOkAux]
        | response mok mbody =>
          cases mok <;> cases mbody <;> simp [signIn, flagOk, flagOkAux]

theorem flagOk_signUp (r : FetchResult DetailBody) :
    flagOk (signUp r).1 = true := by
  cases r with
  | reject m => simp [signUp, flagOk, flagOkAux]
  | response ok body => cases ok <;> cases body <;> simp [signUp, flagOk, flagOkAux]

theorem flagOk_fetchSpaces (t : Option String) (u : Option UserRec)
    (r : FetchResult (List SpaceRec)) : flagOk (fetchSpaces t u r).1 = true := by
  cases t with
  | none => cases u <;> simp [fetchSpaces, flagOk, flagOkAux]
  | some tok =>
    cases u with
    | none => simp [fetchSpaces, flagOk, flagOkAux]
    | some usr =>
      by_cases htok : tok = "" <;>
        cases r with
        | reject m => simp [fetchSpaces, flagOk, flagOkAux, htok]
        | response ok body =>
          cases ok <;> cases body <;> simp [fetchSpaces, flagOk, flagOkAux, htok]

theorem flagOk_fetchSpaceDetails (t i : Option String)
    (sr : FetchResult SpaceRec) (lr : FetchResult (List SpaceLogRec)) :
    flagOk (fetchSpaceDetails t i sr lr).1 = true := by
  cases t with
  | none => cases i <;> simp [fetchSpaceDetails, flagOk, flagOkAux]
  | some tok =>
    cases i with
    | none => simp [fetchSpaceDetails, flagOk, flagOkAux]
    | some idv =>
      by_cases hg : tok = "" ∨ idv = ""
      · simp [fetchSpaceDetails, hg, flagOk, flagOkAux]
      · cases sr with
        | reject m => simp [fetchSpaceDetails, flagOk, flagOkAux, hg]
        | response ok body =>
          cases ok with
          | false => cases body <;> simp [fetchSpaceDetails, flagOk, flagOkAux, hg]
          | true =>
            cases body with
            | error m => simp [fetchSpaceDetails, flagOk, flagOkAux, hg]
            | ok sp =>
              cases lr with
              | reject m2 => simp [fetchSpaceDetails, flagOk, flagOkAux, hg]
              | response lok lbody =>
                cases lok <;> cases lbody <;>
                  simp [fetchSpaceDetails, flagOk, flagOkAux, hg]

theorem flagOk_fetchLogDetails (t lid : Option String) (r : FetchResult SpaceLogRec) :
    flagOk (fetchLogDetails t lid r).1 = true := by
  cases t with
  | none => cases lid <;> simp [fetchLogDetails, flagOk, flagOkAux]
  | some tok =>
    cases lid with
    | none => simp [fetchLogDetails, flagOk, flagOkAux]
    | some lv =>
      by_cases hg : tok = "" ∨ lv = ""
      · simp [fetchLogDetails, hg, flagOk, flagOkAux]
      · cases r with
        | reject m => simp [fetchLogDetails, flagOk, flagOkAux, hg]
        | response ok body =>
          cases ok <;> cases body <;> simp [fetchLogDetails, flagOk, flagOkAux, hg]

theorem flagOk_fetchPatients (t : Option String) (r : FetchResult (List PatientRec)) :
    flagOk (fetchPatients t r).1 = true := by
  cases t with
  | none => simp [fetchPatients, flagOk, flagOkAux]
  | some tok =>
    by_cases htok : tok = "" <;>
      cases r with
      | reject m => simp [fetchPatients, flagOk, flagOkAux, htok]
      | response ok body =>
        cases ok <;> cases body <;> simp [fetchPatients, flagOk, flagOkAux, htok]

theorem flagOk_handleSubmitCreateSpace (nm : String) (t : Option String)
    (u : Option UserRec) (r : FetchResult DetailBody) :
    flagOk (handleSubmitCreateSpace nm t u r) = true := by
  by_cases hnm : jsTrim nm = ""
  · simp [handleSubmitCreateSpace, hnm, flagOk, flagOkAux]
  · cases t with
    | none => cases u <;> simp [handleSubmitCreateSpace, hnm, flagOk, flagOkAux]
    | some tok =>
      cases u with
      | none => simp [handleSubmitCreateSpace, hnm, flagOk, flagOkAux]
      | some usr =>
        by_cases htok : tok = "" <;>
          cases r with
          | reject m => simp [handleSubmitCreateSpace, hnm, flagOk, flagOkAux, htok]
          | response ok body =>
            cases ok <;> cases body <;>
              simp [handleSubmitCreateSpace, hnm, flagOk, flagOkAux, htok]

theorem flagOk_uploadImage (img sid t : Option String) (nm : String)
    (r : MockRand) (res : FetchResult Unit) :
    flagOk (uploadImage img sid t nm r res).1 = true := by
  cases img with
  | none => cases sid <;> cases t <;> simp [uploadImage, flagOk, flagOkAux]
  | some iv =>
    cases sid with
    | none => cases t <;> simp [uploadImage, flagOk, flagOkAux]
    | some sv =>
      cases t with
      | none => simp [uploadImage, flagOk, flagOkAux]
      | some tv =>
        by_cases hg : iv = "" ∨ sv = "" ∨ tv = ""
        · simp [uploadImage, hg, flagOk, flagOkAux]
        · cases res with
          | reject m => simp [uploadImage, flagOk, flagOkAux, hg]
          | response ok body => cases ok <;> simp [uploadImage, flagOk, flagOkAux, hg]

theorem flagOk_onSend (t : Option String) (msg : String) (r : FetchResult ChatBody) :
    flagOk (onSend t msg r) = true := by
  cases r with
  | reject m => simp [onSend, flagOk, flagOkAux]
  | response ok body =>
    cases ok with
    | false => cases body <;> simp [onSend, flagOk, flagOkAux]
    | true =>
      cases body with
      | error m => simp [onSend, flagOk, flagOkAux]
      | ok b =>
        rcases b with ⟨rt, hist⟩
        cases rt with
        | none => simp [onSend, flagOk, flagOkAux]
        | some s => by_cases hs : s = "" <;> simp [onSend, flagOk, flagOkAux, hs]

/-- C8 counterexample: the confirmed space-delete operation of the space
detail screen issues its DELETE request without ever setting a loading
flag, so the flag is not set before the request on that path. -/
theorem handleDeleteSpace_no_flag_counterexample :
    flagOk (handleDeleteSpaceConfirmed (some "t") (some "s1")
      (FetchResult.response true (Except.ok ()))) = false ∧
    requestsOf (handleDeleteSpaceConfirmed (some "t") (some "s1")
      (FetchResult.response true (Except.ok ())))
      = [Endpoint.spaceDelete "s1"] := by
  exact ⟨rfl, rfl⟩

/-- C8 amended: every screen operation that manages a loading flag
(sign-in, sign-up, space list, space details, log details, patient list,
space creation, assessment upload, chat send) sets it before its request
and clears it on every path; the modal edit/delete handlers (e.g. the
space delete above) issue their request without any loading flag. -/
theorem loading_flag_discipline (inp : SignInInputs) (st : AuthState)
    (t i lid img sid : Option String) (u : Option UserRec) (nm msg : String)
    (mr2 : MockRand) (r0 : FetchResult DetailBody) (r1 : FetchResult (List SpaceRec))
    (r2 : FetchResult SpaceRec) (r3 : FetchResult (List SpaceLogRec))
    (r4 : FetchResult SpaceLogRec) (r5 : FetchResult (List PatientRec))
    (r6 : FetchResult DetailBody) (r7 : FetchResult Unit) (r8 : FetchResult ChatBody) :
    flagOk (signIn inp st).events = true ∧
    flagOk (signUp r0).1 = true ∧
    flagOk (fetchSpaces t u r1).1 = true ∧
    flagOk (fetchSpaceDetails t i r2 r3).1 = true ∧
    flagOk (fetchLogDetails t lid r4).1 = true ∧
    flagOk (fetchPatients t r5).1 = true ∧
    flagOk (handleSubmitCreateSpace nm t u r6) = true ∧
    flagOk (uploadImage img sid t nm mr2 r7).1 = true ∧
    flagOk (onSend t msg r8) = true :=
  ⟨flagOk_signIn inp st, flagOk_signUp r0, flagOk_fetchSpaces t u r1,
   flagOk_fetchSpaceDetails t i r2 r3, flagOk_fetchLogDetails t lid r4,
   flagOk_fetchPatients t r5, flagOk_handleSubmitCreateSpace nm t u r6,
   flagOk_uploadImage img sid t nm mr2 r7, flagOk_onSend t msg r8⟩

/-! ## C9: no endpoint requested twice in one invocation -/

theorem requests_nodup_signIn (inp : SignInInputs) (st : AuthState) :
    (requestsOf (signIn inp st).events).Nodup := by
  rcases inp with ⟨lr, mr'⟩
  cases lr with
  | reject m => simp [signIn, requestsOf]
  | response ok body =>
    cases ok with
    | false => cases body <;> simp [signIn, requestsOf]
    | true =>
      cases body with
      | error m => simp [signIn, requestsOf]
      | ok lb =>
        cases mr' with
        | reject m2 => simp [signIn, requestsOf]
        | response mok mbody =>
          cases mok <;> cases mbody <;> simp [signIn, requestsOf]

theorem requests_nodup_signUp (r : FetchResult DetailBody) :
    (requestsOf (signUp r).1).Nodup := by
  cases r with
  | reject m => simp [signUp, requestsOf]
  | response ok body => cases ok <;> cases body <;> simp [signUp, requestsOf]

theorem requests_nodup_fetchSpaces (t : Option String) (u : Option UserRec)
    (r : FetchResult (List SpaceRec)) : (requestsOf (fetchSpaces t u r).1).Nodup := by
  cases t with
  | none => cases u <;> simp [fetchSpaces, requestsOf]
  | some tok =>
    cases u with
    | none => simp [fetchSpaces, requestsOf]
    | some usr =>
      by_cases htok : tok = "" <;>
        cases r with
        | reject m => simp [fetchSpaces, requestsOf, htok]
        | response ok body =>
          cases ok <;> cases body <;> simp [fetchSpaces, requestsOf, htok]

theorem requests_nodup_fetchSpaceDetails (t i : Option String)
    (sr : FetchResult SpaceRec) (lr : FetchResult (List SpaceLogRec)) :
    (requestsOf (fetchSpaceDetails t i sr lr).1).Nodup := by
  cases t with
  | none => cases i <;> simp [fetchSpaceDetails, requestsOf]
  | some tok =>
    cases i with
    | none => simp [fetchSpaceDetails, requestsOf]
    | some idv =>
      by_cases hg : tok = "" ∨ idv = ""
      · simp [fetchSpaceDetails, hg, requestsOf]
      · cases sr with
        | reject m => simp [fetchSpaceDetails, requestsOf, hg]
        | response ok body =>
          cases ok with
          | false => cases body <;> simp [fetchSpaceDetails, requestsOf, hg]
          | true =>
            cases body with
            | error m => simp [fetchSpaceDetails, requestsOf, hg]
            | ok sp =>
              cases lr with
              | reject m2 => simp [fetchSpaceDetails, requestsOf, hg]
              | response lok lbody =>
                cases lok <;> cases lbody <;> simp [fetchSpaceDetails, requestsOf, hg]

theorem requests_nodup_fetchLogDetails (t lid : Option String)
    (r : FetchResult SpaceLogRec) : (requestsOf (fetchLogDetails t lid r).1).Nodup := by
  cases t with
  | none => cases lid <;> simp [fetchLogDetails, requestsOf]
  | some tok =>
    cases lid with
    | none => simp [fetchLogDetails, requestsOf]
    | some lv =>
      by_cases hg : tok = "" ∨ lv = ""
      · simp [fetchLogDetails, hg, requestsOf]
      · cases r with
        | reject m => simp [fetchLogDetails, requestsOf, hg]
        | response ok body =>
          cases ok <;> cases body <;> simp [fetchLogDetails, requestsOf, hg]

theorem requests_nodup_handleSubmitCreateSpace (nm : String) (t : Option String)
    (u : Option UserRec) (r : FetchResult DetailBody) :
    (requestsOf (handleSubmitCreateSpace nm t u r)).Nodup := by
  by_cases hnm : jsTrim nm = ""
  · simp [handleSubmitCreateSpace, hnm, requestsOf]
  · cases t with
    | none => cases u <;> simp [handleSubmitCreateSpace, hnm, requestsOf]
    | some tok =>
      cases u with
      | none => simp [handleSubmitCreateSpace, hnm, requestsOf]
      | some usr =>
        by_cases htok : tok = "" <;>
          cases r with
          | reject m => simp [handleSubmitCreateSpace, hnm, requestsOf, htok]
          | response ok body =>
            cases ok <;> cases body <;>
              simp [handleSubmitCreateSpace, hnm, requestsOf, htok]

theorem requests_nodup_uploadImage (img sid t : Option String) (nm : String)
    (r : MockRand) (res : FetchResult Unit) :
    (requestsOf (uploadImage img sid t nm r res).1).Nodup := by
  cases img with
  | none => cases sid <;> cases t <;> simp [uploadImage, requestsOf]
  | some iv =>
    cases sid with
    | none => cases t <;> simp [uploadImage, requestsOf]
    | some sv =>
      cases t with
      | none => simp [uploadImage, requestsOf]
      | some tv =>
        by_cases hg : iv = "" ∨ sv = "" ∨ tv = ""
        · simp [uploadImage, hg, requestsOf]
        · cases res with
          | reject m => simp [uploadImage, requestsOf, hg]
          | response ok body => cases ok <;> simp [uploadImage, requestsOf, hg]

theorem requests_nodup_onSend (t : Option String) (msg : String)
    (r : FetchResult ChatBody) : (requestsOf (onSend t msg r)).Nodup := by
  cases r with
  | reject m => simp [onSend, requestsOf]
  | response ok body =>
    cases ok with
    | false => cases body <;> simp [onSend, requestsOf]
    | true =>
      cases body with
      | error m => simp [onSend, requestsOf]
      | ok b =>
        rcases b with ⟨rt, hist⟩
        cases rt with
        | none => simp [onSend, requestsOf]
        | some s => by_cases hs : s = "" <;> simp [onSend, requestsOf, hs]

/-- C9: no user action retries a failed request: whatever the outcomes, the
request trace of each operation (sign-in, sign-up, fetch spaces, fetch
logs, create space, upload assessment, send chat message) contains each
endpoint at most once. -/
theorem no_retries (inp : SignInInputs) (st : AuthState)
    (t i lid img sid : Option String) (u : Option UserRec) (nm msg : String)
    (mr2 : MockRand) (r0 : FetchResult DetailBody) (r1 : FetchResult (List SpaceRec))
    (r2 : FetchResult SpaceRec) (r3 : FetchResult (List SpaceLogRec))
    (r4 : FetchResult SpaceLogRec) (r6 : FetchResult DetailBody)
    (r7 : FetchResult Unit) (r8 : FetchResult ChatBody) :
    (requestsOf (signIn inp st).events).Nodup ∧
    (requestsOf (signUp r0).1).Nodup ∧
    (requestsOf (fetchSpaces t u r1).1).Nodup ∧
    (requestsOf (fetchSpaceDetails t i r2 r3).1).Nodup ∧
    (requestsOf (fetchLogDetails t lid r4).1).Nodup ∧
    (requestsOf (handleSubmitCreateSpace nm t u r6)).Nodup ∧
    (requestsOf (uploadImage img sid t nm mr2 r7).1).Nodup ∧
    (requestsOf (onSend t msg r8)).Nodup :=
  ⟨requests_nodup_signIn inp st, requests_nodup_signUp r0,
   requests_nodup_fetchSpaces t u r1, requests_nodup_fetchSpaceDetails t i r2 r3,
   requests_nodup_fetchLogDetails t lid r4,
   requests_nodup_handleSubmitCreateSpace nm t u r6,
   requests_nodup_uploadImage img sid t nm mr2 r7, requests_nodup_onSend t msg r8⟩

end RiskItFree
